import Mathlib

/-
Verification of the TimeTable-Generator backend against its specification.

The development shallowly embeds the three components of the backend:
 - the tabular CSV importer (backend/database/csv_to_sqlite.py),
 - the data access layer (backend/database/database_helper.py),
 - the HTTP route handlers (backend/route.py).

Machine strings are modelled as Lean `String` / `List Char`; SQLite TEXT
ordering (BINARY collation) is modelled as lexicographic order on unicode
scalar values, which agrees with byte order on UTF-8. All definitions are
executable and kernel-reducible so concrete witnesses evaluate by `decide`.
-/

/-! ### Generic string utilities (models of Python / SQLite primitives) -/

/-- Lexicographic order on character lists by code point; model of SQLite's
default BINARY collation on TEXT values (UTF-8 byte order agrees with code
point order). -/
def lexLe : List Char → List Char → Bool
  | [], _ => true
  | _ :: _, [] => false
  | a :: as, b :: bs =>
    if a.toNat < b.toNat then true
    else if b.toNat < a.toNat then false
    else lexLe as bs

/-- String comparison used to model SQL ORDER BY on TEXT columns. -/
def strLe (a b : String) : Bool := lexLe a.toList b.toList

/-- Python `str.replace(old, new)` on character lists, scanning left to right
and replacing non-overlapping occurrences; an empty pattern replaces nothing
(the importer never uses an empty pattern). Structured with explicit fuel so
the kernel can evaluate it; `fuel = s.length` always suffices because every
step consumes at least one character of the input. -/
def replaceAllFuel (pat rep : List Char) : Nat → List Char → List Char
  | 0, s => s
  | _ + 1, [] => []
  | fuel + 1, c :: rest =>
    if !pat.isEmpty && pat.isPrefixOf (c :: rest) then
      rep ++ replaceAllFuel pat rep fuel ((c :: rest).drop pat.length)
    else
      c :: replaceAllFuel pat rep fuel rest

/-- Python `str.replace(old, new)`. -/
def replaceAll (pat rep s : List Char) : List Char :=
  replaceAllFuel pat rep s.length s

/-- SQLite CAST(text AS INTEGER) digit prefix: value of the longest leading
run of ASCII digits (empty run gives 0). -/
def digitPrefixVal (cs : List Char) : Nat :=
  (cs.takeWhile Char.isDigit).foldl (fun a c => a * 10 + (c.toNat - 48)) 0

/-- Model of SQLite `CAST(x AS INTEGER)` for TEXT `x`: skip leading
whitespace, read an optional sign, then the longest prefix of digits;
if there are no digits the result is 0. -/
def castInt (s : String) : Int :=
  match s.toList.dropWhile Char.isWhitespace with
  | '-' :: rest => -(digitPrefixVal rest : Int)
  | '+' :: rest => (digitPrefixVal rest : Int)
  | rest => (digitPrefixVal rest : Int)

/-- Digit tail for `pyInt`: digits possibly separated by single underscores,
every underscore immediately followed by a digit. -/
def pyDigitsCore : Nat → List Char → Option Nat
  | acc, [] => some acc
  | acc, '_' :: c :: cs =>
    if c.isDigit then pyDigitsCore (acc * 10 + (c.toNat - 48)) cs else none
  | acc, c :: cs =>
    if c.isDigit then pyDigitsCore (acc * 10 + (c.toNat - 48)) cs else none

/-- Nonempty digit run for `pyInt`; no leading underscore. -/
def pyDigits : List Char → Option Nat
  | [] => none
  | '_' :: _ => none
  | c :: cs => if c.isDigit then pyDigitsCore (c.toNat - 48) cs else none

/-- The ASCII characters CPython's `int(str)` strips as whitespace
(Py_UNICODE_ISSPACE restricted to ASCII): 0x09-0x0D (tab, newline,
vertical tab, form feed, carriage return), 0x1C-0x1F (the separator
controls) and 0x20 (space). -/
def pySpace (c : Char) : Bool :=
  (9 ≤ c.toNat && c.toNat ≤ 13) || (28 ≤ c.toNat && c.toNat ≤ 31)
    || c.toNat = 32

/-- Model of Python `int(s)` for base 10: surrounding whitespace stripped,
optional sign, nonempty digit run with optional single underscores between
digits; `none` models the `ValueError` raised on any other input. The model
is exact on ASCII strings (which is how the claims that use it are scoped);
Python additionally accepts non-ASCII decimal digits and non-ASCII
whitespace, which this model classifies as errors. -/
def pyInt (s : String) : Option Int :=
  let core :=
    ((s.toList.dropWhile pySpace).reverse.dropWhile pySpace).reverse
  match core with
  | '-' :: rest => (pyDigits rest).map (fun n => -(n : Int))
  | '+' :: rest => (pyDigits rest).map (fun n => (n : Int))
  | rest => (pyDigits rest).map (fun n => (n : Int))

/-- The single-quote character (0x27). -/
def squote : Char := Char.ofNat 39

/-- The double-quote character (0x22). -/
def dquote : Char := Char.ofNat 34

/-- Lowercase hexadecimal digit, for `repr` escapes. -/
def hexDigit (n : Nat) : Char :=
  if n < 10 then Char.ofNat (48 + n) else Char.ofNat (87 + n)

/-- One character of Python `repr(str)` under quote character `q`:
backslash and the chosen quote are backslash-escaped, tab, newline and
carriage return use their mnemonic escapes, the remaining control
characters (below 0x20, and 0x7F) become lowercase \xhh escapes, and every
other ASCII character stands for itself. -/
def pyEscape (q c : Char) : List Char :=
  if c = '\\' then ['\\', '\\']
  else if c = q then ['\\', q]
  else if c = '\t' then ['\\', 't']
  else if c = '\n' then ['\\', 'n']
  else if c = '\r' then ['\\', 'r']
  else if c.toNat < 32 ∨ c.toNat = 127 then
    ['\\', 'x', hexDigit (c.toNat / 16), hexDigit (c.toNat % 16)]
  else [c]

/-- Model of Python `repr` on strings, exact for ASCII content: the string
is wrapped in single quotes, unless it contains a single quote and no
double quote, in which case double quotes are used; characters are escaped
by `pyEscape`. (Non-ASCII printability decisions are outside this model's
ASCII scope.) -/
def pyRepr (s : String) : String :=
  let cs := s.toList
  let q := if squote ∈ cs ∧ ¬ dquote ∈ cs then dquote else squote
  ((q :: cs.flatMap (pyEscape q)) ++ [q]).asString

/-- Message of the Python `ValueError` raised by `int(s)` on a bad literal:
`str(e)` formats the offending text with `repr`. -/
def pyIntErr (s : String) : String :=
  "invalid literal for int() with base 10: " ++ pyRepr s

/-- ASCII-only lower casing, the folding SQLite LIKE applies by default. -/
def asciiFold (c : Char) : Char :=
  if 'A' ≤ c ∧ c ≤ 'Z' then Char.ofNat (c.toNat + 32) else c

/-- Does `f` accept some suffix of the list (including the empty suffix)? -/
def anySuffix (f : List Char → Bool) : List Char → Bool
  | [] => f []
  | c :: t => f (c :: t) || anySuffix f t

/-- Model of SQLite `LIKE`: `%` matches any sequence, `_` any one character,
other characters match up to ASCII case folding. -/
def likeMatch : List Char → List Char → Bool
  | [], s => s.isEmpty
  | '%' :: ps, s => anySuffix (likeMatch ps) s
  | '_' :: ps, s =>
    match s with
    | [] => false
    | _ :: t => likeMatch ps t
  | p :: ps, s =>
    match s with
    | [] => false
    | c :: t => (asciiFold p == asciiFold c) && likeMatch ps t

/-- `LIKE` on strings. -/
def likeStr (pat s : String) : Bool := likeMatch pat.toList s.toList

/-- Literal (non-wildcard) substring occurrence, for contrasting with
`LIKE` semantics. -/
def hasSubstr (needle : List Char) : List Char → Bool
  | [] => needle.isEmpty
  | c :: t => needle.isPrefixOf (c :: t) || hasSubstr needle t

/-! ### Tabular importer (csv_to_sqlite.py, create_database_from_csvs) -/

/-- One CSV input file: the stem of its file name, the header row, and the
data rows (csv_to_sqlite.py lines 39-42). -/
structure CSVFile where
  stem : String
  header : List String
  rows : List (List String)
deriving DecidableEq

/-- One SQLite table of the produced store. -/
structure Table where
  name : String
  header : List String
  rows : List (List String)
deriving DecidableEq

/-- Table name derivation (line 36):
`csv_file.stem.replace(TimeTableDB., ).replace(., _)`. -/
def tableName (stem : String) : String :=
  (replaceAll (".".toList) ("_".toList)
    (replaceAll ("TimeTableDB.".toList) [] stem.toList)).asString

/-- Column-name sanitization (line 64): the four successive single-character
replacements of space, brackets and dot by underscore; since the four source
characters are distinct and none equals the target, the composition is this
single character map. -/
def cleanChar (c : Char) : Char :=
  if c = ' ' ∨ c = '[' ∨ c = ']' ∨ c = '.' then '_' else c

/-- Sanitized column name. -/
def cleanHeader (h : String) : String := (h.toList.map cleanChar).asString

/-- Row normalization (lines 48-57): the while loop appends one empty string
per missing trailing column (so it appends `headers.length - row.length`
copies), then the row is truncated when longer than the header. -/
def normalizeRow (headers : List String) (row : List String) : List String :=
  let padded := row ++ List.replicate (headers.length - row.length) ""
  if headers.length < padded.length then padded.take headers.length else padded

/-- The table built from one nonempty CSV file (lines 59-81): sanitized
header as column set, all data rows normalized to the header width. -/
def mkTable (f : CSVFile) : Table :=
  ⟨tableName f.stem, f.header.map cleanHeader, f.rows.map (normalizeRow f.header)⟩

/-- Append rows to the (first, hence unique in SQLite) table of the given
name: the effect of `executemany INSERT` when `CREATE TABLE IF NOT EXISTS`
found the table already present. -/
def appendRows (nm : String) (newRows : List (List String)) :
    List Table → List Table
  | [] => []
  | t :: ts =>
    if t.name == nm then ⟨t.name, t.header, t.rows ++ newRows⟩ :: ts
    else t :: appendRows nm newRows ts

/-- Processing of one CSV file (loop body, lines 32-99): a file with no data
rows is skipped (lines 44-46) with no table created; otherwise the table is
created if absent, and the normalized rows are inserted. When the table
already exists (a second file mapping to the same name) the INSERT succeeds
only if the value count matches the existing column count; otherwise sqlite3
raises and the run aborts, modelled by `Except.error`. -/
def importStep (db : List Table) (f : CSVFile) : Except String (List Table) :=
  if f.rows.isEmpty then Except.ok db
  else
    match db.find? (fun t => t.name == tableName f.stem) with
    | none => Except.ok (db ++ [mkTable f])
    | some t =>
      if f.header.length = t.header.length then
        Except.ok
          (appendRows (tableName f.stem) (f.rows.map (normalizeRow f.header)) db)
      else
        Except.error ("table " ++ tableName f.stem ++ " has "
          ++ toString t.header.length ++ " columns but "
          ++ toString f.header.length ++ " values were supplied")

/-- The importer's loop over all CSV files of the directory (lines 30-99),
threading the store being built. -/
def importFiles (db : List Table) : List CSVFile → Except String (List Table)
  | [] => Except.ok db
  | f :: fs =>
    match importStep db f with
    | Except.error e => Except.error e
    | Except.ok db2 => importFiles db2 fs

/-- Full run of `create_database_from_csvs` (lines 11-103): any pre-existing
store at the target path is unlinked first (lines 18-21), so the run starts
from an empty store whatever the prior state was. -/
def runImporter (prior : Option (List Table)) (files : List CSVFile) :
    Except String (List Table) :=
  match prior with
  | some _ => importFiles [] files
  | none => importFiles [] files

/-! ### Data model (the four tables' rows, all columns TEXT) -/

/-- A row of the `courses` table. -/
structure Course where
  courseId : String
  courseName : String
  type : String
  semester : String
  specialization : String
deriving DecidableEq

/-- A row of the `instructors` table; the six qualification slots are the
denormalized positional columns produced from `qualifiedCourses[i]`. -/
structure Instructor where
  instructorName : String
  role : String
  qualifiedCourses_0_ : String
  qualifiedCourses_1_ : String
  qualifiedCourses_2_ : String
  qualifiedCourses_3_ : String
  qualifiedCourses_4_ : String
  qualifiedCourses_5_ : String
deriving DecidableEq

/-- A row of the `rooms` table. -/
structure Room where
  roomId : String
  type : String
  capacity : String
  labType : String
deriving DecidableEq

/-- The relational store as seen by the data access layer. -/
structure DB where
  courses : List Course
  instructors : List Instructor
  rooms : List Room
deriving DecidableEq

/-- ORDER BY courseId. -/
def courseLe (a b : Course) : Prop := strLe a.courseId b.courseId = true

instance : DecidableRel courseLe :=
  fun _ _ => inferInstanceAs (Decidable (_ = true))

/-- ORDER BY instructorName. -/
def instrLe (a b : Instructor) : Prop :=
  strLe a.instructorName b.instructorName = true

instance : DecidableRel instrLe :=
  fun _ _ => inferInstanceAs (Decidable (_ = true))

/-- ORDER BY CAST(capacity AS INTEGER). -/
def roomCapLe (a b : Room) : Prop := castInt a.capacity ≤ castInt b.capacity

instance : DecidableRel roomCapLe :=
  fun _ _ => inferInstanceAs (Decidable (_ ≤ _))

/-! ### Data access layer semantics (database_helper.py)

Each query method executes one SELECT with a WHERE filter and an ORDER BY;
its result is modelled as filtering the table rows and sorting by the ORDER
BY key (insertion sort is one sorted permutation, which is all SQL
guarantees). -/

/-- SELECT * FROM courses ORDER BY courseId (line 79). -/
def get_all_courses (cs : List Course) : List Course :=
  List.insertionSort courseLe cs

/-- SELECT * FROM courses WHERE type = ? ORDER BY courseId (lines 81-86). -/
def get_courses_by_type (cs : List Course) (t : String) : List Course :=
  List.insertionSort courseLe (cs.filter (fun c => c.type == t))

/-- SELECT * FROM courses WHERE semester = ? ORDER BY courseId, with the
integer argument bound as `str(semester)` (lines 88-93). -/
def get_courses_by_semester (cs : List Course) (n : Int) : List Course :=
  List.insertionSort courseLe (cs.filter (fun c => c.semester == toString n))

/-- SELECT * FROM courses WHERE specialization = ? ORDER BY courseId
(lines 95-100). -/
def get_courses_by_specialization (cs : List Course) (s : String) :
    List Course :=
  List.insertionSort courseLe (cs.filter (fun c => c.specialization == s))

/-- SELECT * FROM courses WHERE courseId = ? , then `results[0] if results
else None` (lines 102-108); without ORDER BY SQLite returns rows in rowid
(insertion) order, so the first result is the first matching stored row. -/
def get_course_by_id (cs : List Course) (cid : String) : Option Course :=
  (cs.filter (fun c => c.courseId == cid)).head?

/-- The LIKE pattern `%term%` built by search_courses (line 210). -/
def searchPattern (term : String) : String := "%" ++ term ++ "%"

/-- SELECT * FROM courses WHERE courseId LIKE ? OR courseName LIKE ?
ORDER BY courseId, both parameters bound to `%term%` (lines 203-211). -/
def search_courses (cs : List Course) (term : String) : List Course :=
  List.insertionSort courseLe
    (cs.filter (fun c =>
      likeStr (searchPattern term) c.courseId ||
      likeStr (searchPattern term) c.courseName))

/-- SELECT * FROM instructors ORDER BY instructorName (lines 111-113). -/
def get_all_instructors (is : List Instructor) : List Instructor :=
  List.insertionSort instrLe is

/-- SELECT * FROM instructors WHERE role = ? ORDER BY instructorName
(lines 115-120). -/
def get_instructors_by_role (is : List Instructor) (r : String) :
    List Instructor :=
  List.insertionSort instrLe (is.filter (fun i => i.role == r))

/-- The 6-slot disjunction of get_instructors_for_course's WHERE clause. -/
def qualifiedFor (cid : String) (i : Instructor) : Bool :=
  i.qualifiedCourses_0_ == cid || i.qualifiedCourses_1_ == cid ||
  i.qualifiedCourses_2_ == cid || i.qualifiedCourses_3_ == cid ||
  i.qualifiedCourses_4_ == cid || i.qualifiedCourses_5_ == cid

/-- SELECT * FROM instructors WHERE qualifiedCourses_0_ = ? OR ... OR
qualifiedCourses_5_ = ? ORDER BY instructorName, all six parameters bound to
the same course id (lines 130-143). -/
def get_instructors_for_course (is : List Instructor) (cid : String) :
    List Instructor :=
  List.insertionSort instrLe (is.filter (qualifiedFor cid))

/-- SELECT * FROM rooms ORDER BY roomId (lines 146-148). -/
def get_all_rooms (rs : List Room) : List Room :=
  List.insertionSort (fun a b => strLe a.roomId b.roomId = true) rs

/-- SELECT * FROM rooms WHERE type = ? ORDER BY roomId (lines 150-155). -/
def get_rooms_by_type (rs : List Room) (t : String) : List Room :=
  List.insertionSort (fun a b => strLe a.roomId b.roomId = true)
    (rs.filter (fun r => r.type == t))

/-- SELECT * FROM rooms WHERE CAST(capacity AS INTEGER) >= ? ORDER BY
CAST(capacity AS INTEGER) (lines 157-162). -/
def get_rooms_by_capacity (rs : List Room) (minCap : Int) : List Room :=
  List.insertionSort roomCapLe (rs.filter (fun r => minCap ≤ castInt r.capacity))

/-- SELECT * FROM rooms WHERE type = 'Lab' AND labType = ? ORDER BY roomId
(lines 164-169). -/
def get_lab_rooms_by_type (rs : List Room) (lt : String) : List Room :=
  List.insertionSort (fun a b => strLe a.roomId b.roomId = true)
    (rs.filter (fun r => r.type == "Lab" && r.labType == lt))

/-! ### HTTP layer (route.py) -/

/-- The JSON response of one request: HTTP status plus the envelope fields,
each `none` when the corresponding key is absent from the JSON body. -/
structure Resp (α : Type) where
  status : Nat
  success : Option Bool
  data : Option α
  count : Option Nat
  error : Option String
deriving DecidableEq

/-- Success envelope of the list endpoints:
`{success: true, data: ..., count: len(...)}` with status 200. -/
def okList {α : Type} (l : List α) : Resp (List α) :=
  ⟨200, some true, some l, some l.length, none⟩

/-- Success envelope of the single-item endpoints: `{success: true,
data: ...}` with status 200 and no count. -/
def okSingle {α : Type} (x : α) : Resp α :=
  ⟨200, some true, some x, none, none⟩

/-- `{error: msg}, 500`: the generic exception handler of every route. -/
def err500 {α : Type} (msg : String) : Resp α :=
  ⟨500, none, none, none, some msg⟩

/-- `{error: msg}, 404`: single-item lookup miss. -/
def notFound404 {α : Type} (msg : String) : Resp α :=
  ⟨404, none, none, none, some msg⟩

/-- Python truthiness of `request.args.get(...)`: `none` models an absent
query parameter, `some v` a parameter supplied with value `v`; the handler
guards `if value:` are false both for `None` and the empty string. -/
def truthy : Option String → Bool
  | none => false
  | some v => !v.isEmpty

/-- Query parameters of GET /courses. -/
structure CoursesParams where
  search : Option String
  type : Option String
  semester : Option String
  specialization : Option String
deriving DecidableEq

/-- Handler of GET /courses (route.py lines 44-73): branch order search,
type, semester, specialization under Python truthiness; the semester branch
converts with `int(...)`, whose ValueError is caught by the generic handler
and returned as `{error: str(e)}, 500`. -/
def get_courses (db : DB) (p : CoursesParams) : Resp (List Course) :=
  if truthy p.search then
    okList (search_courses db.courses (p.search.getD ""))
  else if truthy p.type then
    okList (get_courses_by_type db.courses (p.type.getD ""))
  else if truthy p.semester then
    match pyInt (p.semester.getD "") with
    | some n => okList (get_courses_by_semester db.courses n)
    | none => err500 (pyIntErr (p.semester.getD ""))
  else if truthy p.specialization then
    okList (get_courses_by_specialization db.courses (p.specialization.getD ""))
  else
    okList (get_all_courses db.courses)

/-- Handler of GET /courses/{courseId} (route.py lines 75-91). -/
def get_course (db : DB) (cid : String) : Resp Course :=
  match get_course_by_id db.courses cid with
  | some c => okSingle c
  | none => notFound404 "Course not found"

/-- Query parameters of GET /rooms. -/
structure RoomsParams where
  type : Option String
  min_capacity : Option String
  lab_type : Option String
deriving DecidableEq

/-- Handler of GET /rooms (route.py lines 138-164): branch order lab_type,
min_capacity, type under Python truthiness; min_capacity is converted with
`int(...)` and a ValueError surfaces as `{error: str(e)}, 500`. -/
def get_rooms (db : DB) (p : RoomsParams) : Resp (List Room) :=
  if truthy p.lab_type then
    okList (get_lab_rooms_by_type db.rooms (p.lab_type.getD ""))
  else if truthy p.min_capacity then
    match pyInt (p.min_capacity.getD "") with
    | some n => okList (get_rooms_by_capacity db.rooms n)
    | none => err500 (pyIntErr (p.min_capacity.getD ""))
  else if truthy p.type then
    okList (get_rooms_by_type db.rooms (p.type.getD ""))
  else
    okList (get_all_rooms db.rooms)

/-! ### SQL statements as submitted to sqlite3 (for the injection claim)

Each data-access method passes a fixed SQL string and a parameter tuple to
`execute_query`, which hands both to `cursor.execute`; the client-supplied
value travels only in the tuple. These definitions record exactly the (sql,
params) pair each method builds. -/

/-- A value bound into a parameter tuple. -/
inductive SQLParam where
  | pstr (v : String)
  | pint (v : Int)
deriving DecidableEq

/-- A statement as submitted to the store: SQL text plus bound parameters. -/
structure SQLStmt where
  sql : String
  params : List SQLParam
deriving DecidableEq

/-- Statement built by get_courses_by_type (lines 83-86). -/
def get_courses_by_type_stmt (t : String) : SQLStmt :=
  ⟨"SELECT * FROM courses WHERE type = ? ORDER BY courseId",
   [SQLParam.pstr t]⟩

/-- Statement built by get_courses_by_semester (lines 90-93); the handler
passes an int and the method binds `str(semester)`. -/
def get_courses_by_semester_stmt (n : Int) : SQLStmt :=
  ⟨"SELECT * FROM courses WHERE semester = ? ORDER BY courseId",
   [SQLParam.pstr (toString n)]⟩

/-- Statement built by get_courses_by_specialization (lines 97-100). -/
def get_courses_by_specialization_stmt (s : String) : SQLStmt :=
  ⟨"SELECT * FROM courses WHERE specialization = ? ORDER BY courseId",
   [SQLParam.pstr s]⟩

/-- Statement built by get_course_by_id (lines 104-107). -/
def get_course_by_id_stmt (cid : String) : SQLStmt :=
  ⟨"SELECT * FROM courses WHERE courseId = ?", [SQLParam.pstr cid]⟩

/-- Statement built by get_instructors_by_role (lines 117-120). -/
def get_instructors_by_role_stmt (r : String) : SQLStmt :=
  ⟨"SELECT * FROM instructors WHERE role = ? ORDER BY instructorName",
   [SQLParam.pstr r]⟩

/-- Statement built by get_instructor_by_name (lines 124-127). -/
def get_instructor_by_name_stmt (nm : String) : SQLStmt :=
  ⟨"SELECT * FROM instructors WHERE instructorName = ?", [SQLParam.pstr nm]⟩

/-- Statement built by get_instructors_for_course (lines 132-143):
`params = (course_id,) * 6`. -/
def get_instructors_for_course_stmt (cid : String) : SQLStmt :=
  ⟨"SELECT * FROM instructors WHERE qualifiedCourses_0_ = ? OR " ++
   "qualifiedCourses_1_ = ? OR qualifiedCourses_2_ = ? OR " ++
   "qualifiedCourses_3_ = ? OR qualifiedCourses_4_ = ? OR " ++
   "qualifiedCourses_5_ = ? ORDER BY instructorName",
   List.replicate 6 (SQLParam.pstr cid)⟩

/-- Statement built by get_rooms_by_type (lines 152-155). -/
def get_rooms_by_type_stmt (t : String) : SQLStmt :=
  ⟨"SELECT * FROM rooms WHERE type = ? ORDER BY roomId", [SQLParam.pstr t]⟩

/-- Statement built by get_rooms_by_capacity (lines 159-162). -/
def get_rooms_by_capacity_stmt (n : Int) : SQLStmt :=
  ⟨"SELECT * FROM rooms WHERE CAST(capacity AS INTEGER) >= ? " ++
   "ORDER BY CAST(capacity AS INTEGER)", [SQLParam.pint n]⟩

/-- Statement built by get_lab_rooms_by_type (lines 166-169). -/
def get_lab_rooms_by_type_stmt (lt : String) : SQLStmt :=
  ⟨"SELECT * FROM rooms WHERE type = \x27Lab\x27 AND labType = ? " ++
   "ORDER BY roomId", [SQLParam.pstr lt]⟩

/-- Statement built by get_timeslots_by_day (lines 178-181). -/
def get_timeslots_by_day_stmt (d : String) : SQLStmt :=
  ⟨"SELECT * FROM timeslots WHERE day = ? ORDER BY startTime",
   [SQLParam.pstr d]⟩

/-- Statement built by get_timeslot_by_id (lines 185-188). -/
def get_timeslot_by_id_stmt (tid : String) : SQLStmt :=
  ⟨"SELECT * FROM timeslots WHERE _id = ?", [SQLParam.pstr tid]⟩

/-- Statement built by search_courses (lines 205-211): the term reaches the
statement only inside the bound pattern `%term%`, twice. -/
def search_courses_stmt (term : String) : SQLStmt :=
  ⟨"SELECT * FROM courses WHERE courseId LIKE ? OR courseName LIKE ? " ++
   "ORDER BY courseId",
   [SQLParam.pstr (searchPattern term), SQLParam.pstr (searchPattern term)]⟩

/-- Invariant claimed for the produced store: every row of every table has
exactly as many columns as the table's header. -/
def RowsOk (db : List Table) : Prop :=
  ∀ t ∈ db, ∀ r ∈ t.rows, r.length = t.header.length

/-- A query parameter the handler guards treat as not supplied: absent from
the query string, or supplied with the empty value (Python falsy). -/
def absentOrEmpty (o : Option String) : Prop := o = none ∨ o = some ""

/-! ### Helper lemmas -/

theorem lexLe_refl (as : List Char) : lexLe as as = true := by
  induction as with
  | nil => rfl
  | cons a as ih => simp [lexLe, ih]

theorem lexLe_total (as : List Char) :
    ∀ bs, lexLe as bs = true ∨ lexLe bs as = true := by
  induction as with
  | nil => intro bs; left; simp [lexLe]
  | cons a as ih =>
    intro bs
    cases bs with
    | nil => right; simp [lexLe]
    | cons b bs =>
      simp only [lexLe]
      split_ifs <;>
        first
        | (left; rfl)
        | (right; rfl)
        | exact ih bs

theorem lexLe_trans (as : List Char) :
    ∀ bs cs, lexLe as bs = true → lexLe bs cs = true → lexLe as cs = true := by
  induction as with
  | nil => intro bs cs _ _; simp [lexLe]
  | cons a as ih =>
    intro bs cs h1 h2
    cases bs with
    | nil => simp [lexLe] at h1
    | cons b bs =>
      cases cs with
      | nil => simp [lexLe] at h2
      | cons c cs =>
        simp only [lexLe] at h1 h2 ⊢
        split_ifs at h1 h2 ⊢ <;>
          first
          | rfl
          | exact ih bs cs h1 h2
          | exact Bool.noConfusion h1
          | exact Bool.noConfusion h2
          | omega

theorem truthy_eq_false_iff (o : Option String) :
    truthy o = false ↔ absentOrEmpty o := by
  cases o with
  | none => simp [truthy, absentOrEmpty]
  | some v =>
    simp only [truthy, absentOrEmpty, Bool.not_eq_false]
    constructor
    · intro h
      right
      simpa [String.isEmpty_iff] using h
    · intro h
      rcases h with h | h
      · cases h
      · cases h; simp [String.isEmpty_iff]

theorem truthy_some (s : String) (h : s ≠ "") : truthy (some s) = true := by
  have hE : s.isEmpty = false := by
    cases hs : s.isEmpty
    · rfl
    · exact absurd ((String.isEmpty_iff s).mp hs) h
  simp [truthy, hE]

theorem anySuffix_empty_pat (s : List Char) :
    anySuffix (likeMatch []) s = true := by
  induction s with
  | nil => rfl
  | cons c t ih =>
    show (likeMatch [] (c :: t) || anySuffix (likeMatch []) t) = true
    rw [ih]
    simp

theorem likeMatch_pct (s : List Char) : likeMatch ['%'] s = true :=
  anySuffix_empty_pat s

theorem likeMatch_pct_pct (s : List Char) : likeMatch ['%', '%'] s = true := by
  show anySuffix (likeMatch ['%']) s = true
  cases s with
  | nil => exact likeMatch_pct []
  | cons c t =>
    show (likeMatch ['%'] (c :: t) || anySuffix (likeMatch ['%']) t) = true
    rw [likeMatch_pct]
    simp

theorem likeStr_empty_pattern (x : String) :
    likeStr (searchPattern "") x = true :=
  likeMatch_pct_pct x.toList

theorem normalizeRow_length (headers row : List String) :
    (normalizeRow headers row).length = headers.length := by
  simp only [normalizeRow]
  split_ifs with h
  · simp only [List.length_take, List.length_append, List.length_replicate]
    simp only [List.length_append, List.length_replicate] at h
    omega
  · simp only [List.length_append, List.length_replicate]
    simp only [List.length_append, List.length_replicate] at h
    omega

theorem rowsOk_appendRows (nm : String) (newRows : List (List String)) :
    ∀ (db : List Table) (t0 : Table), RowsOk db →
      db.find? (fun t => t.name == nm) = some t0 →
      (∀ r ∈ newRows, r.length = t0.header.length) →
      RowsOk (appendRows nm newRows db) := by
  intro db
  induction db with
  | nil => intro t0 _ hfind _; simp [List.find?] at hfind
  | cons t ts ih =>
    intro t0 hok hfind hrows
    cases hEq : (t.name == nm) with
    | true =>
      simp only [List.find?, hEq] at hfind
      have ht0 : t0 = t := (Option.some.inj hfind).symm
      subst ht0
      simp only [appendRows, hEq, if_true]
      intro u hu
      rcases List.mem_cons.mp hu with rfl | hu
      · intro r hr
        rcases List.mem_append.mp hr with hr | hr
        · exact hok t0 (List.mem_cons_self _ _) r hr
        · exact hrows r hr
      · exact hok u (List.mem_cons_of_mem _ hu)
    | false =>
      simp only [List.find?, hEq] at hfind
      simp only [appendRows, hEq, if_false]
      intro u hu
      rcases List.mem_cons.mp hu with rfl | hu
      · exact hok u (List.mem_cons_self _ _)
      · exact ih t0 (fun v hv => hok v (List.mem_cons_of_mem _ hv)) hfind
          hrows u hu

theorem importStep_rowsOk (db : List Table) (f : CSVFile)
    (db2 : List Table) (hok : RowsOk db)
    (hstep : importStep db f = Except.ok db2) : RowsOk db2 := by
  unfold importStep at hstep
  split at hstep
  · exact (Except.ok.inj hstep) ▸ hok
  · split at hstep
    next hfind =>
      have hdb2 : db2 = db ++ [mkTable f] := (Except.ok.inj hstep).symm
      subst hdb2
      intro u hu
      rcases List.mem_append.mp hu with hu | hu
      · exact hok u hu
      · rcases List.mem_singleton.mp hu with rfl
        intro r hr
        rcases List.mem_map.mp hr with ⟨row, _, rfl⟩
        simp only [mkTable, List.length_map]
        exact normalizeRow_length f.header row
    next t hfind =>
      split at hstep
      next hlen =>
        have hdb2 : db2 = appendRows (tableName f.stem)
            (f.rows.map (normalizeRow f.header)) db :=
          (Except.ok.inj hstep).symm
        subst hdb2
        refine rowsOk_appendRows _ _ db t hok hfind ?_
        intro r hr
        rcases List.mem_map.mp hr with ⟨row, _, rfl⟩
        rw [normalizeRow_length f.header row]
        exact hlen
      next => exact Except.noConfusion hstep

theorem importFiles_rowsOk :
    ∀ (fs : List CSVFile) (db db2 : List Table), RowsOk db →
      importFiles db fs = Except.ok db2 → RowsOk db2 := by
  intro fs
  induction fs with
  | nil =>
    intro db db2 hok h
    simp only [importFiles] at h
    exact (Except.ok.inj h) ▸ hok
  | cons f fs ih =>
    intro db db2 hok h
    simp only [importFiles] at h
    cases hstep : importStep db f with
    | error e => rw [hstep] at h; exact Except.noConfusion h
    | ok dbm =>
      rw [hstep] at h
      exact ih dbm db2 (importStep_rowsOk db f dbm hok hstep) h

theorem importFiles_of_nodup :
    ∀ (files : List CSVFile) (acc : List Table),
      ((acc.map Table.name)
        ++ files.map (fun f => tableName f.stem)).Nodup →
      importFiles acc files =
        Except.ok
          (acc ++ (files.filter (fun f => !f.rows.isEmpty)).map mkTable) := by
  intro files
  induction files with
  | nil => intro acc _; simp [importFiles]
  | cons f fs ih =>
    intro acc hnd
    by_cases hemp : f.rows.isEmpty
    · have h1 : importStep acc f = Except.ok acc := by
        simp [importStep, hemp]
      have hnd2 : ((acc.map Table.name)
          ++ fs.map (fun f => tableName f.stem)).Nodup := by
        refine List.Nodup.sublist ?_ hnd
        exact List.Sublist.append_left (List.sublist_cons_self _ _) _
      simp only [importFiles, h1, ih acc hnd2, List.filter_cons,
        Bool.not_eq_true']
      rw [if_neg (by simp [hemp])]
    · have hnm : tableName f.stem ∉ acc.map Table.name := by
        intro hmem
        have hdisj : List.Disjoint (acc.map Table.name)
            ((f :: fs).map (fun f => tableName f.stem)) :=
          (List.nodup_append.mp hnd).2.2
        exact hdisj hmem (by simp)
      have hfind : acc.find? (fun t => t.name == tableName f.stem) = none := by
        apply List.find?_eq_none.mpr
        intro t ht hbeq
        exact hnm (List.mem_map.mpr ⟨t, ht, by simpa using hbeq⟩)
      have h1 : importStep acc f = Except.ok (acc ++ [mkTable f]) := by
        simp [importStep, hemp, hfind]
      have hnd2 : (((acc ++ [mkTable f]).map Table.name)
          ++ fs.map (fun f => tableName f.stem)).Nodup := by
        have : ((acc ++ [mkTable f]).map Table.name)
            ++ fs.map (fun f => tableName f.stem)
            = (acc.map Table.name)
              ++ (f :: fs).map (fun f => tableName f.stem) := by
          simp [mkTable, List.map_append]
        rw [this]
        exact hnd
      simp only [importFiles, h1, ih _ hnd2, List.filter_cons]
      rw [if_pos (by simp [hemp])]
      simp [List.append_assoc]

/-! ### Claims about the importer -/

/-- C1: every CSV data row fed to the importer is stored with exactly as
many columns as the table's header; a row with fewer columns than the
header is stored with the missing trailing columns filled with empty
strings (not rejected), and a row with more columns than the header is
stored with the extra columns dropped. -/
theorem c1_row_normalization :
    (∀ (files : List CSVFile) (db : List Table),
      importFiles [] files = Except.ok db →
      ∀ t ∈ db, ∀ r ∈ t.rows, r.length = t.header.length)
    ∧ (∀ headers row : List String, row.length ≤ headers.length →
        normalizeRow headers row
          = row ++ List.replicate (headers.length - row.length) "")
    ∧ (∀ headers row : List String, headers.length ≤ row.length →
        normalizeRow headers row = row.take headers.length) := by
  refine ⟨?_, ?_, ?_⟩
  · intro files db h
    exact importFiles_rowsOk files [] db
      (fun t ht => absurd ht (List.not_mem_nil t)) h
  · intro headers row h
    simp only [normalizeRow]
    split_ifs with h2
    · exfalso
      simp only [List.length_append, List.length_replicate] at h2
      omega
    · rfl
  · intro headers row h
    simp only [normalizeRow]
    have hrep : headers.length - row.length = 0 := by omega
    rw [hrep, List.replicate_zero, List.append_nil]
    split_ifs with h2
    · rfl
    · have hEq : headers.length = row.length := by omega
      rw [hEq, List.take_length]

/-- Witness for C1 at concrete inputs: a one-file import whose two rows are
respectively one column short and one column long, plus the two
normalization equations at those rows. -/
theorem c1_row_normalization_witness :
    (∀ t ∈ [(⟨"courses", ["id", "n"], [["a", ""], ["a", "b"]]⟩ : Table)],
      ∀ r ∈ t.rows, r.length = t.header.length)
    ∧ normalizeRow ["id", "n"] ["a"]
        = ["a"] ++ List.replicate (["id", "n"].length - ["a"].length) ""
    ∧ normalizeRow ["id"] ["a", "b", "c"]
        = ["a", "b", "c"].take (["id"] : List String).length :=
  ⟨c1_row_normalization.1
      [⟨"TimeTableDB.courses", ["id", "n"], [["a"], ["a", "b", "c"]]⟩] _ rfl,
   c1_row_normalization.2.1 ["id", "n"] ["a"] (by decide),
   c1_row_normalization.2.2 ["id"] ["a", "b", "c"] (by decide)⟩

/-- C2 counterexample: a directory consisting of one file whose header
parses but which contains zero data rows produces a store with NO table at
all (csv_to_sqlite.py lines 44-46 skip the file), refuting "one table per
input file" at this input. -/
theorem c2_counterexample :
    importFiles [] [⟨"TimeTableDB.courses", ["courseId"], []⟩]
      = Except.ok ([] : List Table) := rfl

/-- C2 (amended): for a directory of CSV files whose derived table names
are pairwise distinct, the resulting store contains exactly one table per
input file THAT HAS AT LEAST ONE DATA ROW, in input order, each carrying
the file's sanitized header and normalized rows; a file with zero data rows
is skipped and contributes no table. -/
theorem c2_table_per_file :
    ∀ files : List CSVFile,
      (files.map (fun f => tableName f.stem)).Nodup →
      importFiles [] files =
        Except.ok ((files.filter (fun f => !f.rows.isEmpty)).map mkTable) := by
  intro files h
  have h2 : ((([] : List Table).map Table.name)
      ++ files.map (fun f => tableName f.stem)).Nodup := by simpa using h
  simpa using importFiles_of_nodup files [] h2

/-- Witness for C2 at a concrete directory: two files with distinct names,
one of them with zero data rows; only the nonempty one yields a table. -/
theorem c2_table_per_file_witness :
    importFiles []
        [⟨"TimeTableDB.courses", ["id"], [["a"]]⟩,
         ⟨"TimeTableDB.rooms", ["r"], []⟩]
      = Except.ok
          (([⟨"TimeTableDB.courses", ["id"], [["a"]]⟩,
             ⟨"TimeTableDB.rooms", ["r"], []⟩].filter
              (fun f => !f.rows.isEmpty)).map mkTable) :=
  c2_table_per_file
    [⟨"TimeTableDB.courses", ["id"], [["a"]]⟩,
     ⟨"TimeTableDB.rooms", ["r"], []⟩] (by decide)

/-- C8: the importer first destroys any pre-existing store, so a run's
result does not depend on the prior store at all; in particular re-running
it on the identical input files reproduces the identical store (identical
tables, row contents and row counts). -/
theorem c8_idempotent :
    (∀ (p q : Option (List Table)) (files : List CSVFile),
      runImporter p files = runImporter q files)
    ∧ (∀ (files : List CSVFile) (db : List Table),
      runImporter none files = Except.ok db →
      runImporter (some db) files = Except.ok db) := by
  constructor
  · intro p q files
    cases p <;> cases q <;> rfl
  · intro files db h
    exact h

/-- Witness for C8: running the importer again on top of the store its
first run produced yields that same store. -/
theorem c8_idempotent_witness :
    runImporter (some [⟨"courses", ["id"], [["a"]]⟩])
        [⟨"TimeTableDB.courses", ["id"], [["a"]]⟩]
      = Except.ok [⟨"courses", ["id"], [["a"]]⟩] :=
  c8_idempotent.2 [⟨"TimeTableDB.courses", ["id"], [["a"]]⟩]
    [⟨"courses", ["id"], [["a"]]⟩] rfl

/-! ### Claims about the /courses dispatch and error handling -/

/-- C3 counterexample: a request supplying `search` (with the empty value,
which is still a supplied parameter) together with `type=Lab` is dispatched
to the type filter, not to the search query: Python's `if search:` treats
the supplied empty string as falsy. The store holds one Lecture course, so
the type filter returns [] while the (empty) search would return that
course. -/
theorem c3_counterexample :
    ((⟨some "", some "Lab", none, none⟩ : CoursesParams).search).isSome = true
    ∧ (get_courses ⟨[⟨"CS1", "Intro", "Lecture", "1", "CS"⟩], [], []⟩
          ⟨some "", some "Lab", none, none⟩).data
        ≠ some (search_courses [⟨"CS1", "Intro", "Lecture", "1", "CS"⟩] "") :=
  ⟨rfl, by decide⟩

/-- C3 (amended): filter selection on GET /courses is first-match-wins in
the order search, type, semester, specialization, where a parameter counts
as supplied only when its value is non-empty (a parameter supplied with the
empty string is treated exactly like an absent one); when none of the four
is supplied non-empty the full ordered course list is returned. -/
theorem c3_precedence :
    ∀ (db : DB) (p : CoursesParams),
      (∀ s, p.search = some s → s ≠ "" →
        get_courses db p = okList (search_courses db.courses s))
      ∧ (absentOrEmpty p.search → ∀ t, p.type = some t → t ≠ "" →
        get_courses db p = okList (get_courses_by_type db.courses t))
      ∧ (absentOrEmpty p.search → absentOrEmpty p.type →
        ∀ s, p.semester = some s → s ≠ "" →
        get_courses db p =
          (match pyInt s with
           | some n => okList (get_courses_by_semester db.courses n)
           | none => err500 (pyIntErr s)))
      ∧ (absentOrEmpty p.search → absentOrEmpty p.type →
        absentOrEmpty p.semester →
        ∀ s, p.specialization = some s → s ≠ "" →
        get_courses db p = okList (get_courses_by_specialization db.courses s))
      ∧ (absentOrEmpty p.search → absentOrEmpty p.type →
        absentOrEmpty p.semester → absentOrEmpty p.specialization →
        get_courses db p = okList (get_all_courses db.courses)) := by
  intro db p
  refine ⟨?_, ?_, ?_, ?_, ?_⟩
  · intro s hs hne
    simp [get_courses, hs, truthy_some s hne]
  · intro h1 t ht hne
    have e1 : truthy p.search = false := (truthy_eq_false_iff _).mpr h1
    simp [get_courses, e1, ht, truthy_some t hne]
  · intro h1 h2 s hs hne
    have e1 : truthy p.search = false := (truthy_eq_false_iff _).mpr h1
    have e2 : truthy p.type = false := (truthy_eq_false_iff _).mpr h2
    simp [get_courses, e1, e2, hs, truthy_some s hne]
  · intro h1 h2 h3 s hs hne
    have e1 : truthy p.search = false := (truthy_eq_false_iff _).mpr h1
    have e2 : truthy p.type = false := (truthy_eq_false_iff _).mpr h2
    have e3 : truthy p.semester = false := (truthy_eq_false_iff _).mpr h3
    simp [get_courses, e1, e2, e3, hs, truthy_some s hne]
  · intro h1 h2 h3 h4
    have e1 : truthy p.search = false := (truthy_eq_false_iff _).mpr h1
    have e2 : truthy p.type = false := (truthy_eq_false_iff _).mpr h2
    have e3 : truthy p.semester = false := (truthy_eq_false_iff _).mpr h3
    have e4 : truthy p.specialization = false :=
      (truthy_eq_false_iff _).mpr h4
    simp [get_courses, e1, e2, e3, e4]

/-- Witness for C3 at concrete requests: a non-empty `search` wins over a
supplied `type`, and a request whose only supplied parameter is the empty
string falls through to the full list. -/
theorem c3_precedence_witness :
    get_courses ⟨[⟨"CS1", "Intro", "Lecture", "1", "CS"⟩], [], []⟩
        ⟨some "CS", some "Lab", none, none⟩
      = okList (search_courses [⟨"CS1", "Intro", "Lecture", "1", "CS"⟩] "CS")
    ∧ get_courses ⟨[⟨"CS1", "Intro", "Lecture", "1", "CS"⟩], [], []⟩
        ⟨none, some "", none, none⟩
      = okList (get_all_courses [⟨"CS1", "Intro", "Lecture", "1", "CS"⟩]) :=
  ⟨(c3_precedence ⟨[⟨"CS1", "Intro", "Lecture", "1", "CS"⟩], [], []⟩
      ⟨some "CS", some "Lab", none, none⟩).1 "CS" rfl (by decide),
   (c3_precedence ⟨[⟨"CS1", "Intro", "Lecture", "1", "CS"⟩], [], []⟩
      ⟨none, some "", none, none⟩).2.2.2.2
     (Or.inl rfl) (Or.inr rfl) (Or.inl rfl) (Or.inl rfl)⟩

/-- C7 counterexample: a request supplying the non-numeric value `abc` for
`min_capacity` together with a `lab_type` is answered with status 200, not
500: the lab_type branch has precedence and `int(min_capacity)` is never
evaluated. -/
theorem c7_counterexample :
    pyInt "abc" = none
    ∧ (get_rooms ⟨[], [], [⟨"R1", "Lab", "30", "BioLab"⟩]⟩
        ⟨none, some "abc", some "BioLab"⟩).status = 200 :=
  ⟨rfl, by decide⟩

/-- C7 (amended): when the integer-converting filter is the one selected
(no earlier parameter in the endpoint's precedence order is supplied
non-empty) and its value is a non-empty ASCII string rejected by Python's
`int()`, the response has status 500 (not 400) and its body carries the
underlying `ValueError` message, with its repr-formatted literal, in the
`error` field, with no data. The ASCII scoping is necessary for
faithfulness: for a non-ASCII value such as arabic-digit numerals Python's
`int()` succeeds and the program answers 200. -/
theorem c7_conversion_error :
    ∀ db : DB,
      (∀ (p : CoursesParams) (s : String),
        s.toList.all (fun c => c.toNat < 128) = true →
        absentOrEmpty p.search → absentOrEmpty p.type →
        p.semester = some s → s ≠ "" → pyInt s = none →
        (get_courses db p).status = 500
        ∧ (get_courses db p).error = some (pyIntErr s)
        ∧ (get_courses db p).data = none)
      ∧ (∀ (p : RoomsParams) (s : String),
        s.toList.all (fun c => c.toNat < 128) = true →
        absentOrEmpty p.lab_type →
        p.min_capacity = some s → s ≠ "" → pyInt s = none →
        (get_rooms db p).status = 500
        ∧ (get_rooms db p).error = some (pyIntErr s)
        ∧ (get_rooms db p).data = none) := by
  intro db
  constructor
  · intro p s _hascii h1 h2 hs hne hpy
    have e1 : truthy p.search = false := (truthy_eq_false_iff _).mpr h1
    have e2 : truthy p.type = false := (truthy_eq_false_iff _).mpr h2
    simp [get_courses, e1, e2, hs, truthy_some s hne, hpy, err500]
  · intro p s _hascii h1 hs hne hpy
    have e1 : truthy p.lab_type = false := (truthy_eq_false_iff _).mpr h1
    simp [get_rooms, e1, hs, truthy_some s hne, hpy, err500]

/-- Witness for C7 at concrete requests: the non-numeric value `abc` for
semester (single-quoted by repr) and the value ten-digits-apostrophe for
min_capacity, which repr wraps in DOUBLE quotes because it contains a
single quote; the final conjunct spells that message out. -/
theorem c7_conversion_error_witness :
    ((get_courses ⟨[], [], []⟩ ⟨none, none, some "abc", none⟩).status = 500
      ∧ (get_courses ⟨[], [], []⟩ ⟨none, none, some "abc", none⟩).error
          = some (pyIntErr "abc")
      ∧ (get_courses ⟨[], [], []⟩ ⟨none, none, some "abc", none⟩).data = none)
    ∧ ((get_rooms ⟨[], [], []⟩ ⟨none, some "10\x27", none⟩).status = 500
      ∧ (get_rooms ⟨[], [], []⟩ ⟨none, some "10\x27", none⟩).error
          = some (pyIntErr "10\x27")
      ∧ (get_rooms ⟨[], [], []⟩ ⟨none, some "10\x27", none⟩).data = none)
    ∧ pyIntErr "abc" = "invalid literal for int() with base 10: \x27abc\x27"
    ∧ pyIntErr "10\x27"
        = "invalid literal for int() with base 10: \x2210\x27\x22" :=
  ⟨(c7_conversion_error ⟨[], [], []⟩).1 ⟨none, none, some "abc", none⟩ "abc"
      (by decide) (Or.inl rfl) (Or.inl rfl) rfl (by decide) (by decide),
   (c7_conversion_error ⟨[], [], []⟩).2 ⟨none, some "10\x27", none⟩ "10\x27"
      (by decide) (Or.inl rfl) rfl (by decide) (by decide),
   by decide, by decide⟩

/-! ### Claims about the data access layer queries -/

/-- C4: for every course id, the instructor-qualified-for-course lookup
returns exactly the instructor rows for which the id equals at least one of
the 6 qualification slot columns (logical OR across 6 equality predicates),
each matching row with its multiplicity in the table (so exactly once even
when the id occupies several of its slots), ordered by instructor name. -/
theorem c4_instructors_for_course :
    ∀ (is : List Instructor) (cid : String),
      (get_instructors_for_course is cid).Perm (is.filter (qualifiedFor cid))
      ∧ List.Sorted instrLe (get_instructors_for_course is cid)
      ∧ (∀ i, i ∈ get_instructors_for_course is cid ↔
          i ∈ is ∧ (i.qualifiedCourses_0_ = cid ∨ i.qualifiedCourses_1_ = cid
            ∨ i.qualifiedCourses_2_ = cid ∨ i.qualifiedCourses_3_ = cid
            ∨ i.qualifiedCourses_4_ = cid ∨ i.qualifiedCourses_5_ = cid))
      ∧ (∀ i, qualifiedFor cid i = true →
          (get_instructors_for_course is cid).count i = is.count i) := by
  intro is cid
  refine ⟨List.perm_insertionSort instrLe _, ?_, ?_, ?_⟩
  · haveI : IsTotal Instructor instrLe := ⟨fun a b => lexLe_total _ _⟩
    haveI : IsTrans Instructor instrLe :=
      ⟨fun _ _ _ h1 h2 => lexLe_trans _ _ _ h1 h2⟩
    exact List.sorted_insertionSort instrLe _
  · intro i
    unfold get_instructors_for_course
    rw [(List.perm_insertionSort instrLe _).mem_iff, List.mem_filter]
    simp [qualifiedFor, or_assoc]
  · intro i h
    unfold get_instructors_for_course
    rw [(List.perm_insertionSort instrLe _).count_eq]
    exact List.count_filter h

/-- Witness for C4: an instructor holding the course in both slot 0 and
slot 2 appears exactly once (its multiplicity in the one-row table). -/
theorem c4_instructors_for_course_witness :
    (get_instructors_for_course
        [⟨"Dr A", "Prof", "C1", "", "C1", "", "", ""⟩] "C1").count
        ⟨"Dr A", "Prof", "C1", "", "C1", "", "", ""⟩
      = [(⟨"Dr A", "Prof", "C1", "", "C1", "", "", ""⟩ : Instructor)].count
          ⟨"Dr A", "Prof", "C1", "", "C1", "", "", ""⟩ :=
  (c4_instructors_for_course
      [⟨"Dr A", "Prof", "C1", "", "C1", "", "", ""⟩] "C1").2.2.2
    ⟨"Dr A", "Prof", "C1", "", "C1", "", "", ""⟩ (by decide)

/-- C5: for every integer threshold, the rooms-by-capacity query returns
exactly the rooms whose capacity, cast to an integer the way SQLite casts
TEXT, is at least the threshold, and the result is sorted by ascending
numeric (cast) capacity. -/
theorem c5_rooms_by_capacity :
    ∀ (rs : List Room) (n : Int),
      (get_rooms_by_capacity rs n).Perm
        (rs.filter (fun r => n ≤ castInt r.capacity))
      ∧ List.Sorted roomCapLe (get_rooms_by_capacity rs n)
      ∧ (∀ r, r ∈ get_rooms_by_capacity rs n ↔
          r ∈ rs ∧ n ≤ castInt r.capacity) := by
  intro rs n
  refine ⟨List.perm_insertionSort roomCapLe _, ?_, ?_⟩
  · haveI : IsTotal Room roomCapLe := ⟨fun a b => le_total _ _⟩
    haveI : IsTrans Room roomCapLe := ⟨fun _ _ _ => le_trans⟩
    exact List.sorted_insertionSort roomCapLe _
  · intro r
    unfold get_rooms_by_capacity
    rw [(List.perm_insertionSort roomCapLe _).mem_iff, List.mem_filter]
    simp

/-- C6: for a course id present in the store GET /courses/{id} answers 200
with the success envelope holding exactly one record, a stored row with
that id; for an id not present it answers 404 with an error body carrying
no data field. -/
theorem c6_course_by_id :
    ∀ (db : DB) (cid : String),
      ((∃ c ∈ db.courses, c.courseId = cid) →
        (get_course db cid).status = 200
        ∧ (get_course db cid).success = some true
        ∧ (get_course db cid).error = none
        ∧ ∃ c, (get_course db cid).data = some c
            ∧ c ∈ db.courses ∧ c.courseId = cid)
      ∧ ((∀ c ∈ db.courses, c.courseId ≠ cid) →
        (get_course db cid).status = 404
        ∧ (get_course db cid).data = none
        ∧ (get_course db cid).success = none
        ∧ (get_course db cid).error = some "Course not found") := by
  intro db cid
  constructor
  · intro hex
    cases hflt : db.courses.filter (fun c => c.courseId == cid) with
    | nil =>
      exfalso
      rcases hex with ⟨c, hc, hid⟩
      have : c ∈ db.courses.filter (fun c => c.courseId == cid) :=
        List.mem_filter.mpr ⟨hc, by simp [hid]⟩
      rw [hflt] at this
      exact absurd this (List.not_mem_nil c)
    | cons c t =>
      have hmem : c ∈ db.courses.filter (fun c => c.courseId == cid) := by
        rw [hflt]; exact List.mem_cons_self _ _
      have hc := List.mem_filter.mp hmem
      have hresp : get_course db cid = okSingle c := by
        simp [get_course, get_course_by_id, hflt]
      rw [hresp]
      exact ⟨rfl, rfl, rfl, c, rfl, hc.1, by simpa using hc.2⟩
  · intro habs
    have hflt : db.courses.filter (fun c => c.courseId == cid) = [] := by
      apply List.filter_eq_nil_iff.mpr
      intro c hc
      simpa using habs c hc
    have hresp : get_course db cid = notFound404 "Course not found" := by
      simp [get_course, get_course_by_id, hflt]
    rw [hresp]
    exact ⟨rfl, rfl, rfl, rfl⟩

/-- Witness for C6: a present id (the stored row comes back in the data
field with status 200) and an absent id (404 with no data). -/
theorem c6_course_by_id_witness :
    ((get_course ⟨[⟨"CS1", "Intro", "Lecture", "1", "CS"⟩], [], []⟩
        "CS1").status = 200
      ∧ (get_course ⟨[⟨"CS1", "Intro", "Lecture", "1", "CS"⟩], [], []⟩
          "CS1").success = some true
      ∧ (get_course ⟨[⟨"CS1", "Intro", "Lecture", "1", "CS"⟩], [], []⟩
          "CS1").error = none
      ∧ ∃ c, (get_course ⟨[⟨"CS1", "Intro", "Lecture", "1", "CS"⟩], [], []⟩
            "CS1").data = some c
          ∧ c ∈ [(⟨"CS1", "Intro", "Lecture", "1", "CS"⟩ : Course)]
          ∧ c.courseId = "CS1")
    ∧ ((get_course ⟨[⟨"CS1", "Intro", "Lecture", "1", "CS"⟩], [], []⟩
        "CS9").status = 404
      ∧ (get_course ⟨[⟨"CS1", "Intro", "Lecture", "1", "CS"⟩], [], []⟩
          "CS9").data = none
      ∧ (get_course ⟨[⟨"CS1", "Intro", "Lecture", "1", "CS"⟩], [], []⟩
          "CS9").success = none
      ∧ (get_course ⟨[⟨"CS1", "Intro", "Lecture", "1", "CS"⟩], [], []⟩
          "CS9").error = some "Course not found") :=
  ⟨(c6_course_by_id ⟨[⟨"CS1", "Intro", "Lecture", "1", "CS"⟩], [], []⟩
      "CS1").1 ⟨⟨"CS1", "Intro", "Lecture", "1", "CS"⟩, by decide, rfl⟩,
   (c6_course_by_id ⟨[⟨"CS1", "Intro", "Lecture", "1", "CS"⟩], [], []⟩
      "CS9").2 (by decide)⟩

/-! ### Claims about query construction and search semantics -/

/-- C9: for every data-access filter method and every pair of filter
values, the SQL text submitted to the store is identical, and the
client-supplied value appears only in the bound parameter tuple, never
interpolated into the query string: the executed statement's shape is
independent of filter input. -/
theorem c9_bound_parameters :
    (∀ v w : String,
      (get_courses_by_type_stmt v).sql = (get_courses_by_type_stmt w).sql)
    ∧ (∀ v : String,
      (get_courses_by_type_stmt v).params = [SQLParam.pstr v])
    ∧ (∀ v w : Int, (get_courses_by_semester_stmt v).sql
        = (get_courses_by_semester_stmt w).sql)
    ∧ (∀ v : Int, (get_courses_by_semester_stmt v).params
        = [SQLParam.pstr (toString v)])
    ∧ (∀ v w : String, (get_courses_by_specialization_stmt v).sql
        = (get_courses_by_specialization_stmt w).sql)
    ∧ (∀ v : String,
      (get_courses_by_specialization_stmt v).params = [SQLParam.pstr v])
    ∧ (∀ v w : String,
      (get_course_by_id_stmt v).sql = (get_course_by_id_stmt w).sql)
    ∧ (∀ v : String, (get_course_by_id_stmt v).params = [SQLParam.pstr v])
    ∧ (∀ v w : String, (get_instructors_by_role_stmt v).sql
        = (get_instructors_by_role_stmt w).sql)
    ∧ (∀ v : String,
      (get_instructors_by_role_stmt v).params = [SQLParam.pstr v])
    ∧ (∀ v w : String, (get_instructor_by_name_stmt v).sql
        = (get_instructor_by_name_stmt w).sql)
    ∧ (∀ v : String,
      (get_instructor_by_name_stmt v).params = [SQLParam.pstr v])
    ∧ (∀ v w : String, (get_instructors_for_course_stmt v).sql
        = (get_instructors_for_course_stmt w).sql)
    ∧ (∀ v : String, (get_instructors_for_course_stmt v).params
        = List.replicate 6 (SQLParam.pstr v))
    ∧ (∀ v w : String,
      (get_rooms_by_type_stmt v).sql = (get_rooms_by_type_stmt w).sql)
    ∧ (∀ v : String, (get_rooms_by_type_stmt v).params = [SQLParam.pstr v])
    ∧ (∀ v w : Int, (get_rooms_by_capacity_stmt v).sql
        = (get_rooms_by_capacity_stmt w).sql)
    ∧ (∀ v : Int,
      (get_rooms_by_capacity_stmt v).params = [SQLParam.pint v])
    ∧ (∀ v w : String, (get_lab_rooms_by_type_stmt v).sql
        = (get_lab_rooms_by_type_stmt w).sql)
    ∧ (∀ v : String,
      (get_lab_rooms_by_type_stmt v).params = [SQLParam.pstr v])
    ∧ (∀ v w : String, (get_timeslots_by_day_stmt v).sql
        = (get_timeslots_by_day_stmt w).sql)
    ∧ (∀ v : String,
      (get_timeslots_by_day_stmt v).params = [SQLParam.pstr v])
    ∧ (∀ v w : String, (get_timeslot_by_id_stmt v).sql
        = (get_timeslot_by_id_stmt w).sql)
    ∧ (∀ v : String, (get_timeslot_by_id_stmt v).params = [SQLParam.pstr v])
    ∧ (∀ v w : String,
      (search_courses_stmt v).sql = (search_courses_stmt w).sql)
    ∧ (∀ v : String, (search_courses_stmt v).params
        = [SQLParam.pstr (searchPattern v), SQLParam.pstr (searchPattern v)]) :=
  ⟨fun _ _ => rfl, fun _ => rfl, fun _ _ => rfl, fun _ => rfl,
   fun _ _ => rfl, fun _ => rfl, fun _ _ => rfl, fun _ => rfl,
   fun _ _ => rfl, fun _ => rfl, fun _ _ => rfl, fun _ => rfl,
   fun _ _ => rfl, fun _ => rfl, fun _ _ => rfl, fun _ => rfl,
   fun _ _ => rfl, fun _ => rfl, fun _ _ => rfl, fun _ => rfl,
   fun _ _ => rfl, fun _ => rfl, fun _ _ => rfl, fun _ => rfl,
   fun _ _ => rfl, fun _ => rfl⟩

/-- C10: the free-text course search embeds the term directly into the LIKE
pattern percent-term-percent, so the empty term matches every course, and a
percent or underscore inside the term acts as a SQL wildcard rather than
being matched literally: the match is not a literal-substring match for
terms containing wildcard characters. -/
theorem c10_search_like_semantics :
    (∀ t : String, searchPattern t = "%" ++ t ++ "%")
    ∧ (∀ cs : List Course, (search_courses cs "").Perm cs)
    ∧ likeStr (searchPattern "a%b") "aXYZb" = true
    ∧ hasSubstr ("a%b".toList) ("aXYZb".toList) = false
    ∧ likeStr (searchPattern "a_b") "aXb" = true
    ∧ hasSubstr ("a_b".toList) ("aXb".toList) = false := by
  refine ⟨fun t => rfl, ?_, by decide, by decide, by decide, by decide⟩
  intro cs
  have hf : cs.filter (fun c =>
      likeStr (searchPattern "") c.courseId ||
      likeStr (searchPattern "") c.courseName) = cs := by
    apply List.filter_eq_self.mpr
    intro c _
    rw [likeStr_empty_pattern, likeStr_empty_pattern]
    rfl
  unfold search_courses
  rw [hf]
  exact List.perm_insertionSort courseLe cs
